import Mathlib

/-!
Verification of the virtual-classroom front-end (React + Socket.IO client).

The development shallowly embeds the component logic of the repository:

* `src/src/components/Whiteboard.jsx` — multi-page drawing canvas with
  socket event handlers (`whiteboard:draw` / `clear` / `newPage` /
  `changePage`) and local operations (`startDrawing`, `draw`,
  `handleClear`, `addNewPage`, `goToPage`).
* `src/src/components/EmotionDisplay.jsx` and the StudentPage engagement
  handler — engagement display maps and verbatim storage of received
  `engagement:result` data.
* The two variants of the `useAgora` hook (`src/src/hooks/useAgora.js`
  and the newer copy in `src/unnamed/part_002`) — media-acquisition
  error handling of `join`.
* The REST error-handling behaviour of the Axios/fetch call sites
  (`src/unnamed/part_000`, `src/unnamed/part_001`, LandingPage).
* The LandingPage `handleAuth` effect sequence (localStorage writes).

Socket payloads are modelled as ordered field lists mirroring the JS
object literals the code passes to `socket.emit`.
-/

namespace Frontend

/-- A primitive JS value as it appears in the socket payload object
literals of this code base (strings and numbers only; the code never
places arrays or nested objects in the whiteboard payloads). -/
inductive JsVal where
  | str (s : String)
  | num (n : Int)
deriving DecidableEq, Repr

/-- A socket message payload: the ordered fields of the JS object
literal passed to `socket.emit`. -/
abbrev Payload := List (String × JsVal)

/-- One emission `socket.emit(eventName, payload)`. -/
abbrev SocketEmit := String × Payload

/-- All payload field values occurring in a list of emissions. -/
def payloadVals (es : List SocketEmit) : List JsVal :=
  (es.flatMap Prod.snd).map Prod.snd

/-! ## Whiteboard component (`src/src/components/Whiteboard.jsx`)

The component receives three props and keeps React state:
`isDrawing`, `color`, `brushSize`, `tool`, `pages` (array of page
images, `null` = blank page), `currentPage`, plus the mutable canvas
element.  The canvas bitmap is modelled as a `String`: `""` is the
cleared canvas, `toDataURL` is the identity on the model, and a stroke
appends a textual record of the `drawLine` call.  The pointer-event
geometry of `getCoordinates` (DOM rectangle scaling) is abstracted: an
event is taken to already carry canvas coordinates. -/

/-- Props of the `Whiteboard` component: `socket` (modelled as its
truthiness), `channelName`, `isTeacher`. -/
structure WbProps where
  hasSocket : Bool
  channelName : String
  isTeacher : Bool
deriving DecidableEq, Repr

/-- React state of the `Whiteboard` component together with the canvas
bitmap and the `canvas._lastX` / `canvas._lastY` expando fields. -/
structure WbState where
  isDrawing : Bool
  color : String
  brushSize : Nat
  tool : String
  pages : List (Option String)
  currentPage : Nat
  canvas : String
  lastX : Int
  lastY : Int
deriving DecidableEq, Repr

/-- Initial state: `useState([null])` for pages, `useState(0)` for
`currentPage`, pen tool, black color, brush 3, cleared canvas. -/
def initialWbState : WbState :=
  { isDrawing := false
    color := "#000000"
    brushSize := 3
    tool := "pen"
    pages := [none]
    currentPage := 0
    canvas := ""
    lastX := 0
    lastY := 0 }

/-- JS array element assignment `xs[i] = v` on a pages array: in range
it overwrites; past the end it extends the array with holes
(`undefined`, modelled as `none`) up to index `i`. -/
def jsArraySet (xs : List (Option String)) (i : Nat) (v : String) :
    List (Option String) :=
  if i < xs.length then xs.set i (some v)
  else xs ++ List.replicate (i - xs.length) none ++ [some v]

/-- The textual record a `drawLine(ctx, x0, y0, x1, y1, color,
brushSize, tool)` call appends to the canvas model: the eraser strokes
white at triple width, the pen strokes `color` at `brushSize`. -/
def strokeStr (x0 y0 x1 y1 : Int) (color : String) (brushSize : Nat)
    (tool : String) : String :=
  let effColor := if tool = "eraser" then "#ffffff" else color
  let effWidth := if tool = "eraser" then brushSize * 3 else brushSize
  "line(" ++ toString x0 ++ "," ++ toString y0 ++ "," ++ toString x1 ++
    "," ++ toString y1 ++ "," ++ effColor ++ "," ++ toString effWidth ++ ");"

/-- Canvas contents after `goToPage` loads page `i` from a pages array:
`clearCanvas()` followed by `if (pages[pageIndex]) img.src = ...`.  An
out-of-range or `null` entry is falsy, leaving the cleared canvas; a
stored image string is drawn (an empty stored string is falsy in JS but
also denotes the blank canvas, so the outcomes coincide). -/
def loadPage (pages : List (Option String)) (i : Nat) : String :=
  match pages.getD i none with
  | some img => img
  | none => ""

/-- Function `saveCurrentPage`: serialize the canvas (`toDataURL`) and store it
at `pages[currentPage]` in a copy of the array. -/
def saveCurrentPage (s : WbState) : WbState :=
  { s with pages := jsArraySet s.pages s.currentPage s.canvas }

/-- Function `startDrawing(e)`: no-op for non-teachers; otherwise set
`isDrawing` and record the pointer position in `canvas._lastX/Y`. -/
def startDrawing (p : WbProps) (x y : Int) (s : WbState) :
    WbState × List SocketEmit :=
  if !p.isTeacher then (s, [])
  else ({ s with isDrawing := true, lastX := x, lastY := y }, [])

/-- Function `draw(e)`: no-op unless drawing and teacher; otherwise stroke from
the last position to `(x, y)`, emit `whiteboard:draw` when a socket is
present, and update the last position. -/
def draw (p : WbProps) (x y : Int) (s : WbState) :
    WbState × List SocketEmit :=
  if !s.isDrawing || !p.isTeacher then (s, [])
  else
    let s' := { s with
      canvas := s.canvas ++ strokeStr s.lastX s.lastY x y s.color s.brushSize s.tool
      lastX := x
      lastY := y }
    let es := if p.hasSocket then
      [("whiteboard:draw",
        [("channelName", JsVal.str p.channelName),
         ("x0", JsVal.num s.lastX), ("y0", JsVal.num s.lastY),
         ("x1", JsVal.num x), ("y1", JsVal.num y),
         ("color", JsVal.str s.color),
         ("brushSize", JsVal.num s.brushSize),
         ("tool", JsVal.str s.tool)])]
      else []
    (s', es)

/-- Function `stopDrawing()`. -/
def stopDrawing (s : WbState) : WbState × List SocketEmit :=
  ({ s with isDrawing := false }, [])

/-- Function `handleClear()`: no-op for non-teachers; otherwise clear the canvas
and emit `whiteboard:clear` with the current page index. -/
def handleClear (p : WbProps) (s : WbState) : WbState × List SocketEmit :=
  if !p.isTeacher then (s, [])
  else
    ({ s with canvas := "" },
     if p.hasSocket then
       [("whiteboard:clear",
         [("channelName", JsVal.str p.channelName),
          ("page", JsVal.num s.currentPage)])]
     else [])

/-- Function `addNewPage()`: no-op for non-teachers; otherwise save, append a
blank page, move to it, clear the canvas, and emit
`whiteboard:newPage`.  Both `setPages` calls of the source close over
the same render's `pages` array, so the second call
(`setPages([...pages, null])`) overwrites the save performed by
`saveCurrentPage`; the final pages array is the old array plus a blank
page. -/
def addNewPage (p : WbProps) (s : WbState) : WbState × List SocketEmit :=
  if !p.isTeacher then (s, [])
  else
    ({ s with
        pages := s.pages ++ [none]
        currentPage := s.pages.length
        canvas := "" },
     if p.hasSocket then
       [("whiteboard:newPage",
         [("channelName", JsVal.str p.channelName),
          ("pageCount", JsVal.num (s.pages.length + 1))])]
     else [])

/-- Function `goToPage(pageIndex)`: save the current canvas into the local pages
array, set `currentPage`, clear and reload the canvas from the captured
(pre-save) pages array, and emit `whiteboard:changePage` carrying only
the channel name and the page index.  There is no `isTeacher` guard and
no bounds check on `pageIndex`. -/
def goToPage (p : WbProps) (pageIndex : Nat) (s : WbState) :
    WbState × List SocketEmit :=
  ({ s with
      pages := jsArraySet s.pages s.currentPage s.canvas
      currentPage := pageIndex
      canvas := loadPage s.pages pageIndex },
   if p.hasSocket then
     [("whiteboard:changePage",
       [("channelName", JsVal.str p.channelName),
        ("page", JsVal.num pageIndex)])]
   else [])

/-! ### Incoming socket events

The handlers are registered under `if (socket)`, one per event name;
each reads the fields below from the received data object. -/

/-- Data of a received `whiteboard:draw` event. -/
structure DrawData where
  channelName : String
  x0 : Int
  y0 : Int
  x1 : Int
  y1 : Int
  color : String
  brushSize : Nat
  tool : String
deriving DecidableEq, Repr

/-- Data of a received `whiteboard:clear` event. -/
structure ClearData where
  channelName : String
  page : Nat
deriving DecidableEq, Repr

/-- Data of a received `whiteboard:newPage` event (the handler reads
only `channelName`; `pageCount` is ignored). -/
structure NewPageData where
  channelName : String
deriving DecidableEq, Repr

/-- Data of a received `whiteboard:changePage` event. -/
structure ChangePageData where
  channelName : String
  page : Nat
deriving DecidableEq, Repr

/-- Handler for `whiteboard:draw`: draw the received stroke when the
channel matches, else ignore. -/
def onDraw (p : WbProps) (d : DrawData) (s : WbState) :
    WbState × List SocketEmit :=
  if d.channelName = p.channelName then
    ({ s with canvas := s.canvas ++
        strokeStr d.x0 d.y0 d.x1 d.y1 d.color d.brushSize d.tool }, [])
  else (s, [])

/-- Handler for `whiteboard:clear`: clear the canvas when both the
channel and the page index match the current page, else ignore. -/
def onClear (p : WbProps) (d : ClearData) (s : WbState) :
    WbState × List SocketEmit :=
  if d.channelName = p.channelName ∧ d.page = s.currentPage then
    ({ s with canvas := "" }, [])
  else (s, [])

/-- Handler for `whiteboard:newPage`: append a blank page when the
channel matches, else ignore. -/
def onNewPage (p : WbProps) (d : NewPageData) (s : WbState) :
    WbState × List SocketEmit :=
  if d.channelName = p.channelName then
    ({ s with pages := s.pages ++ [none] }, [])
  else (s, [])

/-- Handler for `whiteboard:changePage`: call `goToPage(data.page)`
when the channel matches — with no bounds check on the received index —
else ignore. -/
def onChangePage (p : WbProps) (d : ChangePageData) (s : WbState) :
    WbState × List SocketEmit :=
  if d.channelName = p.channelName then goToPage p d.page s
  else (s, [])

/-! ### Page navigation buttons and the transition system

The Previous button calls `goToPage(Math.max(0, currentPage - 1))`, the
Next button `goToPage(Math.min(pages.length - 1, currentPage + 1))`,
and one numbered button per existing page calls `goToPage(index)`. -/

/-- Index targeted by the Previous button:
`Math.max(0, currentPage - 1)` (truncated subtraction on `Nat`). -/
def prevPageIndex (s : WbState) : Nat :=
  s.currentPage - 1

/-- Index targeted by the Next button:
`Math.min(pages.length - 1, currentPage + 1)`. -/
def nextPageIndex (s : WbState) : Nat :=
  min (s.pages.length - 1) (s.currentPage + 1)

/-- The "array index in range" view-state invariant of the spec:
`currentPage` is a valid index into `pages`. -/
def WbInv (s : WbState) : Prop :=
  s.currentPage < s.pages.length

instance (s : WbState) : Decidable (WbInv s) := by
  unfold WbInv; infer_instance

/-! ### The component transition system with handler captures

The socket handlers are registered in a `useEffect` whose dependency
list is `[socket, channelName, isFullscreen, currentPage]` — `pages`
is missing.  The registered handler closures therefore read the
`pages` array (and the `currentPage` variable) captured at their last
registration, refreshed only when `currentPage` changes (or the
fullscreen flag toggles), not when `pages` changes.  The canvas is a
ref and always current, and the `setPages` / `setCurrentPage` setters
are stable.  A component configuration is the committed React state
plus that capture; click handlers come from the latest render and read
the committed state. -/

/-- The `pages` / `currentPage` values captured by the registered
socket-handler closures. -/
structure WbCapture where
  capPages : List (Option String)
  capCurrentPage : Nat
deriving DecidableEq, Repr

/-- Committed component state plus the registered handlers' capture. -/
structure WbComp where
  st : WbState
  cap : WbCapture
deriving DecidableEq, Repr

/-- On mount the effect runs once, capturing the initial state. -/
def initialWbComp : WbComp :=
  WbComp.mk initialWbState (WbCapture.mk [none] 0)

/-- Effect re-registration after a commit: among the dependencies
`[socket, channelName, isFullscreen, currentPage]` only `currentPage`
can change here (socket and channelName are fixed props; a fullscreen
toggle is modelled as a separate step), so the handlers are
re-registered — capturing the just-committed `pages` and
`currentPage` — exactly when `currentPage` changed. -/
def commitEffect (prevCurrentPage : Nat) (c : WbComp) : WbComp :=
  if c.st.currentPage ≠ prevCurrentPage then
    WbComp.mk c.st (WbCapture.mk c.st.pages c.st.currentPage)
  else c

/-- A local (render-fresh) operation: the click handler reads the
committed state; afterwards the effect check runs. -/
def localComp (f : WbState → WbState × List SocketEmit) (c : WbComp) :
    WbComp :=
  commitEffect c.st.currentPage (WbComp.mk (f c.st).1 c.cap)

/-- A fullscreen toggle commits `isFullscreen`, re-running the effect
and refreshing the capture (the canvas resize preserves content). -/
def toggleFullscreenComp (c : WbComp) : WbComp :=
  WbComp.mk c.st (WbCapture.mk c.st.pages c.st.currentPage)

/-- Delivered `whiteboard:draw`: the handler draws on the (current)
canvas from the event data alone, so closure staleness is
immaterial. -/
def recvDrawComp (p : WbProps) (d : DrawData) (c : WbComp) : WbComp :=
  commitEffect c.st.currentPage (WbComp.mk (onDraw p d c.st).1 c.cap)

/-- Delivered `whiteboard:clear`: the stale closure compares
`data.page` against the captured `currentPage`. -/
def recvClearComp (p : WbProps) (d : ClearData) (c : WbComp) : WbComp :=
  commitEffect c.st.currentPage
    (WbComp.mk
      (if d.channelName = p.channelName ∧ d.page = c.cap.capCurrentPage
        then { c.st with canvas := "" } else c.st)
      c.cap)

/-- Delivered `whiteboard:newPage`: `setPages(prev => [...prev, null])`
is a functional update, so it appends to the *current* pages array even
from a stale closure; `currentPage` does not change, so — `pages` being
absent from the dependency list — the handlers are not
re-registered. -/
def recvNewPageComp (p : WbProps) (d : NewPageData) (c : WbComp) :
    WbComp :=
  commitEffect c.st.currentPage (WbComp.mk (onNewPage p d c.st).1 c.cap)

/-- Delivered `whiteboard:changePage`: the stale closure runs
`goToPage(data.page)` reading `pages` and `currentPage` from the
capture (the canvas ref is current): it commits
`jsArraySet capPages capCurrentPage canvas` as the new pages array —
shrinking it back to the captured length when `pages` has grown since
registration — sets `currentPage` to the received index with no bounds
check, and loads the canvas from the captured array. -/
def recvChangePageComp (p : WbProps) (d : ChangePageData) (c : WbComp) :
    WbComp :=
  if d.channelName = p.channelName then
    commitEffect c.st.currentPage
      (WbComp.mk
        (goToPage p d.page
          { c.st with pages := c.cap.capPages,
                      currentPage := c.cap.capCurrentPage }).1
        c.cap)
  else c

/-- One step of the mounted Whiteboard component under props `p`: a
local UI operation, a fullscreen toggle, or the delivery of one socket
event (the channel is unordered and at-most-once, so any event with
any data may arrive at any time).  Numbered page buttons exist only
for indices below `pages.length`. -/
inductive WbCompStep (p : WbProps) : WbComp → WbComp → Prop
  | start (x y : Int) (c : WbComp) :
      WbCompStep p c (localComp (startDrawing p x y) c)
  | drawMove (x y : Int) (c : WbComp) :
      WbCompStep p c (localComp (draw p x y) c)
  | stop (c : WbComp) : WbCompStep p c (localComp stopDrawing c)
  | clearPage (c : WbComp) : WbCompStep p c (localComp (handleClear p) c)
  | newPage (c : WbComp) : WbCompStep p c (localComp (addNewPage p) c)
  | prevPage (c : WbComp) :
      WbCompStep p c (localComp (fun s => goToPage p (prevPageIndex s) s) c)
  | nextPage (c : WbComp) :
      WbCompStep p c (localComp (fun s => goToPage p (nextPageIndex s) s) c)
  | pageButton (i : Nat) (c : WbComp) (h : i < c.st.pages.length) :
      WbCompStep p c (localComp (goToPage p i) c)
  | toggleFs (c : WbComp) : WbCompStep p c (toggleFullscreenComp c)
  | recvDraw (d : DrawData) (c : WbComp) :
      WbCompStep p c (recvDrawComp p d c)
  | recvClear (d : ClearData) (c : WbComp) :
      WbCompStep p c (recvClearComp p d c)
  | recvNewPage (d : NewPageData) (c : WbComp) :
      WbCompStep p c (recvNewPageComp p d c)
  | recvChangePage (d : ChangePageData) (c : WbComp) :
      WbCompStep p c (recvChangePageComp p d c)

/-- Reachable configurations of a mounted Whiteboard component. -/
def WbCompReachable (p : WbProps) (c : WbComp) : Prop :=
  Relation.ReflTransGen (WbCompStep p) initialWbComp c

/-- Same transition system as `WbCompStep`, except that a delivered
`whiteboard:changePage` addressed to the component's channel must carry
a page index within the pages array captured at the handlers' last
registration (the array the stale closure actually uses). -/
inductive WbCompStepBounded (p : WbProps) : WbComp → WbComp → Prop
  | start (x y : Int) (c : WbComp) :
      WbCompStepBounded p c (localComp (startDrawing p x y) c)
  | drawMove (x y : Int) (c : WbComp) :
      WbCompStepBounded p c (localComp (draw p x y) c)
  | stop (c : WbComp) : WbCompStepBounded p c (localComp stopDrawing c)
  | clearPage (c : WbComp) :
      WbCompStepBounded p c (localComp (handleClear p) c)
  | newPage (c : WbComp) :
      WbCompStepBounded p c (localComp (addNewPage p) c)
  | prevPage (c : WbComp) :
      WbCompStepBounded p c
        (localComp (fun s => goToPage p (prevPageIndex s) s) c)
  | nextPage (c : WbComp) :
      WbCompStepBounded p c
        (localComp (fun s => goToPage p (nextPageIndex s) s) c)
  | pageButton (i : Nat) (c : WbComp) (h : i < c.st.pages.length) :
      WbCompStepBounded p c (localComp (goToPage p i) c)
  | toggleFs (c : WbComp) : WbCompStepBounded p c (toggleFullscreenComp c)
  | recvDraw (d : DrawData) (c : WbComp) :
      WbCompStepBounded p c (recvDrawComp p d c)
  | recvClear (d : ClearData) (c : WbComp) :
      WbCompStepBounded p c (recvClearComp p d c)
  | recvNewPage (d : NewPageData) (c : WbComp) :
      WbCompStepBounded p c (recvNewPageComp p d c)
  | recvChangePage (d : ChangePageData) (c : WbComp)
      (h : d.channelName = p.channelName →
        d.page < c.cap.capPages.length) :
      WbCompStepBounded p c (recvChangePageComp p d c)

/-- Reachability when every delivered `whiteboard:changePage` addressed
to the component's channel carries an index within the captured pages
array. -/
def WbCompReachableBounded (p : WbProps) (c : WbComp) : Prop :=
  Relation.ReflTransGen (WbCompStepBounded p) initialWbComp c

/-- Inductive invariant of the bounded system: the committed index is
in range of both the committed and the captured pages array, the
captured `currentPage` agrees with the committed one (`currentPage` is
an effect dependency, so the capture refreshes whenever it changes),
and the captured array is never longer than the committed one (only
`whiteboard:newPage` deliveries grow `pages` without refreshing the
capture). -/
def WbCompInv (c : WbComp) : Prop :=
  WbInv c.st ∧
  c.cap.capCurrentPage = c.st.currentPage ∧
  c.st.currentPage < c.cap.capPages.length ∧
  c.cap.capPages.length ≤ c.st.pages.length

instance (c : WbComp) : Decidable (WbCompInv c) := by
  unfold WbCompInv; infer_instance


/-! ### Spec-side model of the page-synchronization logic

The spec describes the whiteboard page-sync logic as: "on local page
change, serialize the canvas to an image and re-emit it to every peer;
on receiving a peer's page list, replace local state with it."  The two
definitions below follow those words, for comparison with the code's
`goToPage` / `onChangePage`. -/

/-- The spec's words, for comparison with the code: on a local page
change the client serializes the canvas and re-emits the image to every
peer. -/
def specModelPageChangeEmit (channelName canvasImage : String) :
    List SocketEmit :=
  [("whiteboard:changePage",
    [("channelName", JsVal.str channelName),
     ("image", JsVal.str canvasImage)])]

/-- The spec's words, for comparison with the code: on receiving a
peer's page list, replace the local page state with the received
list. -/
def specModelReceivePageList (received : List (Option String))
    (s : WbState) : WbState :=
  { s with pages := received }

/-! ## Socket event inventory

Application-level socket event names appearing in `socket.emit(...)`
and `on(...)` / `socket.on(...)` calls across StudentPage
(`src/unnamed/part_003`, `src/unnamed/part_004`), TeacherPage
(`src/src/hooks/useAgora.js`, second document), and
`src/src/components/Whiteboard.jsx`.  The Socket.IO lifecycle events
(`connect`, `disconnect`, `connect_error`) of
`src/src/services/socket.js` are reserved transport events, not
application events, and are not inventoried. -/

/-- The event names the spec lists, with `*:leave` standing for
`student:leave` and `teacher:leave`. -/
def specEventNames : List String :=
  ["student:join", "teacher:join", "student:leave", "teacher:leave",
   "frame:send", "engagement:update", "engagement:result",
   "whiteboard:draw", "whiteboard:clear", "whiteboard:newPage",
   "whiteboard:changePage"]

/-- Every event name the front-end passes to `emit` / `socket.emit`:
StudentPage emits `student:join`, `student:leave`, `frame:send`;
TeacherPage emits `teacher:join`, `teacher:leave`; the Whiteboard emits
the four `whiteboard:*` events. -/
def emittedEventNames : List String :=
  ["student:join", "student:leave", "frame:send",
   "teacher:join", "teacher:leave",
   "whiteboard:draw", "whiteboard:clear", "whiteboard:newPage",
   "whiteboard:changePage"]

/-- Every event name the front-end registers a listener for: the
Whiteboard listens for the four `whiteboard:*` events; TeacherPage
listens for `students:list`, `student:joined`, `student:left`,
`engagement:update`; StudentPage listens for `engagement:result`,
`engagement:error`, `student:joined`, `teacher:joined`,
`student:left`, `teacher:left`. -/
def listenedEventNames : List String :=
  ["whiteboard:draw", "whiteboard:clear", "whiteboard:newPage",
   "whiteboard:changePage",
   "students:list", "student:joined", "student:left",
   "engagement:update",
   "engagement:result", "engagement:error", "teacher:joined",
   "teacher:left"]

/-- Listener registrations in the code that the spec's event list does
not mention. -/
def extraListenedEventNames : List String :=
  ["students:list", "student:joined", "teacher:joined",
   "student:left", "teacher:left", "engagement:error"]

/-! ## Media acquisition in `useAgora.join`

Two variants of the hook exist: the older
`src/src/hooks/useAgora.js` and the newer `src/unnamed/part_002`.
Only their media-acquisition outcome is modelled: which tracks end up
published, or which error is thrown.  Token retrieval and the RTC SDK
join are assumed to succeed (both variants reach track creation only
after them, and track creation is what the claim is about). -/

/-- A JS error as the track-creation code inspects it:
`err.message?.includes('video')` and `err.code === 'NOT_READABLE'`. -/
structure TrackErr where
  message : Option String
  code : Option String
deriving DecidableEq, Repr

/-- Occurrence of `pat` at some position of `hay` (character lists). -/
def charListContainsSub (pat : List Char) : List Char → Bool
  | [] => pat.isEmpty
  | c :: t => pat.isPrefixOf (c :: t) || charListContainsSub pat t

/-- JS `s.includes(pat)`: `pat` occurs somewhere in `s`. -/
def strContainsSub (s pat : String) : Bool :=
  charListContainsSub pat.data s.data

/-- JS optional chaining `m?.includes(pat)`: `undefined` is falsy. -/
def optMsgContains (m : Option String) (pat : String) : Bool :=
  match m with
  | some s => strContainsSub s pat
  | none => false

/-- Outcome of the media-acquisition part of `join`. -/
inductive MediaOutcome where
  | publishedBoth
  | publishedAudioOnly
  | failed (message : Option String)
deriving DecidableEq, Repr

/-- Older `useAgora` (`src/src/hooks/useAgora.js`): a single
`createMicrophoneAndCameraTracks` call; any track-creation error is
caught only by the outer handler, which sets the error state and
rethrows.  There is no audio-only fallback. -/
def joinOldMedia (trackRes : Except TrackErr Unit) : MediaOutcome :=
  match trackRes with
  | .ok _ => .publishedBoth
  | .error e => .failed e.message

/-- Error message of the newer join's device pre-check: the inner catch
swallows the enumeration result and throws this fixed message. -/
def deviceCheckErrMsg : String :=
  "Cannot access camera/microphone. Please allow permissions."

/-- Error message thrown when the audio-only fallback also fails. -/
def audioFallbackErrMsg : String :=
  "Cannot access camera or microphone. Please check:\n1. Permissions are granted\n2. Camera is not used by another app\n3. Try refreshing the page"

/-- Newer `useAgora` (`src/unnamed/part_002`): first a device
pre-check (throws a fixed message when no camera or no microphone is
enumerated, with no fallback); then track creation; on a track error
whose message mentions "video" or whose code is `NOT_READABLE`, an
audio-only microphone track is attempted (publishing audio only on
success, throwing a fixed message on failure); every other track error
is rethrown. -/
def joinNewMedia (hasCamera hasMicrophone : Bool)
    (trackRes : Except TrackErr Unit) (audioRes : Except TrackErr Unit) :
    MediaOutcome :=
  if !hasCamera || !hasMicrophone then .failed (some deviceCheckErrMsg)
  else
    match trackRes with
    | .ok _ => .publishedBoth
    | .error e =>
      if optMsgContains e.message "video" || e.code = some "NOT_READABLE" then
        match audioRes with
        | .ok _ => .publishedAudioOnly
        | .error _ => .failed (some audioFallbackErrMsg)
      else .failed e.message

/-! ## REST call failure handling

One record per REST call site, transcribing what its `catch` block
does: log to the console, call `alert`, rethrow, or set an inline
error element. -/

/-- Failure-handling behaviour of one REST call site. -/
structure RestCallBehavior where
  name : String
  logsOnError : Bool
  alertsOnError : Bool
  rethrows : Bool
  setsInlineError : Bool
deriving DecidableEq, Repr

/-- Every REST call the front-end makes, with its `catch` behaviour:
`getAgoraToken` / `getStudents` (`src/unnamed/part_000`) log and
rethrow; `fetchAnalytics`, `fetchTopics`, `startTopic`, `endTopic`
(`src/unnamed/part_001`) only log; `generateReport`
(`src/unnamed/part_001`) logs and alerts; the LandingPage `handleAuth`
fetch (`src/src/hooks/useAgora.js`, second document) logs and sets an
inline error message. -/
def restCalls : List RestCallBehavior :=
  [⟨"getAgoraToken", true, false, true, false⟩,
   ⟨"getStudents", true, false, true, false⟩,
   ⟨"fetchAnalytics", true, false, false, false⟩,
   ⟨"fetchTopics", true, false, false, false⟩,
   ⟨"startTopic", true, false, false, false⟩,
   ⟨"endTopic", true, false, false, false⟩,
   ⟨"generateReport", true, true, false, false⟩,
   ⟨"handleAuth", true, false, false, true⟩]

/-! ## LandingPage authentication (`handleAuth`) -/

/-- An observable effect of `handleAuth`. -/
inductive AuthEffect where
  | localStorageSet (key value : String)
  | navigate (path : String)
  | setErrorMsg (message : String)
deriving DecidableEq, Repr

/-- The parsed response body and HTTP status `handleAuth` inspects. -/
structure AuthResponse where
  ok : Bool
  userJson : String
  token : String
  available : Option Bool
  message : Option String
deriving DecidableEq, Repr

/-- Function `handleAuth` after the fetch settles: on a network error, set an
inline error; on an `ok` response, write the user object and token to
`localStorage` and navigate to the role's portal; otherwise set an
inline error depending on `data.available` / `data.message`. -/
def handleAuthEffects (role : String)
    (result : Except Unit AuthResponse) : List AuthEffect :=
  match result with
  | .error _ =>
    [.setErrorMsg "Authentication service is unavailable. Please use demo access below."]
  | .ok r =>
    if r.ok then
      [.localStorageSet "user" r.userJson,
       .localStorageSet "token" r.token,
       .navigate (if role = "student" then "/student" else "/teacher")]
    else if r.available = some false then
      [.setErrorMsg "Authentication is temporarily unavailable. Please use demo access below."]
    else
      [.setErrorMsg (r.message.getD "Authentication failed")]

/-- The `(key, value)` pairs a list of effects writes to
`localStorage` — the only storage in the code that survives a page
reload. -/
def localStorageWrites (effects : List AuthEffect) :
    List (String × String) :=
  effects.filterMap fun e =>
    match e with
    | .localStorageSet k v => some (k, v)
    | _ => none

/-! ## Engagement display (`src/src/components/EmotionDisplay.jsx`)
and the StudentPage `engagement:result` handler -/

/-- The four engagement states of the glossary. -/
def engagementStates : List String :=
  ["Engaged", "Bored", "Confused", "Not Paying Attention"]

/-- The `emojiMap` object literal of `getEngagementEmoji`. -/
def emojiMap : List (String × String) :=
  [("Engaged", "✅"), ("Bored", "😴"), ("Confused", "🤔"),
   ("Not Paying Attention", "😐")]

/-- The `colorMap` object literal of `getEngagementColor`. -/
def colorMap : List (String × String) :=
  [("Engaged", "#10b981"), ("Bored", "#f59e0b"), ("Confused", "#ef4444"),
   ("Not Paying Attention", "#6b7280")]

/-- Property names every plain object literal inherits from
`Object.prototype`: reading `obj[k]` for such a `k` on an object
without an own property `k` yields the inherited member — a function,
or `Object.prototype` itself for `__proto__` — which is truthy, not
`undefined`. -/
def objectPrototypeKeys : List String :=
  ["constructor", "hasOwnProperty", "isPrototypeOf",
   "propertyIsEnumerable", "toLocaleString", "toString", "valueOf",
   "__proto__", "__defineGetter__", "__defineSetter__",
   "__lookupGetter__", "__lookupSetter__"]

/-- What rendering `map[key] || default` produces: a string (an own
value, or the default), or an inherited `Object.prototype` member that
leaks through the truthiness check. -/
inductive DisplayVal where
  | str (s : String)
  | protoMember (name : String)
deriving DecidableEq, Repr

/-- JS `obj[key] || dflt` on a string-valued object literal: an own
property wins (its value falling back to the default only when falsy,
i.e. the empty string); otherwise a key naming an inherited
`Object.prototype` member yields that truthy member; only a genuinely
absent key reads as `undefined` and falls back to the default. -/
def jsLookupOrDefault (own : List (String × String))
    (key dflt : String) : DisplayVal :=
  match own.lookup key with
  | some v => if v = "" then DisplayVal.str dflt else DisplayVal.str v
  | none =>
    if key ∈ objectPrototypeKeys then DisplayVal.protoMember key
    else DisplayVal.str dflt

/-- Function `getEngagementEmoji`, the JS lookup with default. -/
def getEngagementEmoji (engagement : String) : DisplayVal :=
  jsLookupOrDefault emojiMap engagement "🤔"

/-- Function `getEngagementColor`, the JS color lookup with default. -/
def getEngagementColor (engagement : String) : DisplayVal :=
  jsLookupOrDefault colorMap engagement "#6b7280"

/-- Data of a received `engagement:result` event.  The confidence
number is carried opaquely; the client only stores and displays it. -/
structure EngagementResultData where
  engagement : String
  confidence : Int
deriving DecidableEq, Repr

/-- StudentPage engagement view state (`currentEngagement`,
`confidence`). -/
structure StudentEngState where
  currentEngagement : Option String
  confidence : Int
deriving DecidableEq, Repr

/-- StudentPage `handleEngagementResult`: store the received
engagement and confidence verbatim; nothing is computed locally. -/
def handleEngagementResult (d : EngagementResultData)
    (s : StudentEngState) : StudentEngState :=
  { s with currentEngagement := some d.engagement, confidence := d.confidence }

/-! ## Theorems -/

/-- C3: for every client where `isTeacher` is false, `startDrawing`,
`draw`, `handleClear` and `addNewPage` are no-ops — they leave the
state unchanged and emit no socket event — while `goToPage` has no such
guard: a non-teacher navigating pages still emits
`whiteboard:changePage` whenever a socket is present. -/
theorem c3_nonteacher_ops_are_noops (p : WbProps) (x y : Int)
    (s : WbState) (hT : p.isTeacher = false) :
    startDrawing p x y s = (s, []) ∧ draw p x y s = (s, []) ∧
    handleClear p s = (s, []) ∧ addNewPage p s = (s, []) ∧
    (∀ i : Nat, p.hasSocket = true →
      (goToPage p i s).2 =
        [("whiteboard:changePage",
          [("channelName", JsVal.str p.channelName),
           ("page", JsVal.num (i : Int))])]) := by
  refine ⟨?_, ?_, ?_, ?_, ?_⟩ <;>
    simp [startDrawing, draw, handleClear, addNewPage, goToPage, hT]

/-- Witness for `c3_nonteacher_ops_are_noops` at a concrete student
client. -/
theorem c3_nonteacher_witness :
    (WbProps.mk true "room" false).isTeacher = false ∧
    startDrawing (WbProps.mk true "room" false) 1 2 initialWbState =
      (initialWbState, []) := by
  have h := c3_nonteacher_ops_are_noops (WbProps.mk true "room" false)
    1 2 initialWbState rfl
  exact ⟨rfl, h.1⟩

/-- C4: a `whiteboard:changePage` event whose channel matches the
component's own is re-emitted with the same page index on the same
channel, because the handler calls `goToPage` and `goToPage` emits
whenever a socket is present (and the handler is only registered when
one is). -/
theorem c4_matching_changePage_reemits (p : WbProps)
    (d : ChangePageData) (s : WbState) (hs : p.hasSocket = true)
    (hc : d.channelName = p.channelName) :
    (onChangePage p d s).2 =
      [("whiteboard:changePage",
        [("channelName", JsVal.str d.channelName),
         ("page", JsVal.num (d.page : Int))])] := by
  simp [onChangePage, goToPage, hc, hs]

/-- Witness for `c4_matching_changePage_reemits`. -/
theorem c4_reemit_witness :
    (onChangePage (WbProps.mk true "room" false)
        (ChangePageData.mk "room" 0) initialWbState).2 =
      [("whiteboard:changePage",
        [("channelName", JsVal.str "room"),
         ("page", JsVal.num 0)])] :=
  c4_matching_changePage_reemits (WbProps.mk true "room" false)
    (ChangePageData.mk "room" 0) initialWbState rfl rfl

/-- C9: every Whiteboard socket handler ignores events addressed to a
different channel — canvas and page state are left unchanged and
nothing is emitted. -/
theorem c9_other_channel_events_ignored (p : WbProps) (s : WbState)
    (d1 : DrawData) (d2 : ClearData) (d3 : NewPageData)
    (d4 : ChangePageData)
    (h1 : d1.channelName ≠ p.channelName)
    (h2 : d2.channelName ≠ p.channelName)
    (h3 : d3.channelName ≠ p.channelName)
    (h4 : d4.channelName ≠ p.channelName) :
    onDraw p d1 s = (s, []) ∧ onClear p d2 s = (s, []) ∧
    onNewPage p d3 s = (s, []) ∧ onChangePage p d4 s = (s, []) := by
  refine ⟨?_, ?_, ?_, ?_⟩ <;>
    simp [onDraw, onClear, onNewPage, onChangePage, h1, h2, h3, h4]

/-- Witness for `c9_other_channel_events_ignored`: a `whiteboard:draw`
for room "other" leaves a client of room "room" unchanged. -/
theorem c9_noninterference_witness :
    onDraw (WbProps.mk true "room" false)
        (DrawData.mk "other" 0 0 1 1 "#000000" 3 "pen") initialWbState =
      (initialWbState, []) := by
  have h := c9_other_channel_events_ignored (WbProps.mk true "room" false)
    initialWbState (DrawData.mk "other" 0 0 1 1 "#000000" 3 "pen")
    (ClearData.mk "other" 0) (NewPageData.mk "other")
    (ChangePageData.mk "other" 0)
    (by decide) (by decide) (by decide) (by decide)
  exact h.1

/-- C10 counterexample: the received values "toString" and
"constructor" lie outside the four glossary states, yet the display
functions return the truthy inherited `Object.prototype` member — the
`||` never sees a falsy value — instead of falling back to the default
emoji and default color. -/
theorem c10_proto_key_counterexample :
    "toString" ∉ engagementStates ∧
    getEngagementEmoji "toString" = DisplayVal.protoMember "toString" ∧
    ¬ getEngagementEmoji "toString" = DisplayVal.str "🤔" ∧
    "constructor" ∉ engagementStates ∧
    getEngagementColor "constructor" =
      DisplayVal.protoMember "constructor" ∧
    ¬ getEngagementColor "constructor" = DisplayVal.str "#6b7280" := by
  decide

/-- C10 as amended: the client only stores the engagement value
received in an `engagement:result` event (verbatim, computing nothing
locally); for any received value outside the four glossary states that
does not name an inherited `Object.prototype` member, the display
functions fall back to the default emoji and default color, while a
received `Object.prototype` member name instead leaks the inherited
member through the truthiness check. -/
theorem c10_engagement_display_behavior (d : EngagementResultData)
    (s : StudentEngState) (e : String) (he : e ∉ engagementStates)
    (hpk : e ∉ objectPrototypeKeys) :
    handleEngagementResult d s =
      StudentEngState.mk (some d.engagement) d.confidence ∧
    (getEngagementEmoji e = DisplayVal.str "🤔" ∧
     getEngagementColor e = DisplayVal.str "#6b7280") ∧
    (∀ k ∈ objectPrototypeKeys,
      getEngagementEmoji k = DisplayVal.protoMember k ∧
      getEngagementColor k = DisplayVal.protoMember k) := by
  have h1 : e ≠ "Engaged" := by intro h; exact he (by simp [engagementStates, h])
  have h2 : e ≠ "Bored" := by intro h; exact he (by simp [engagementStates, h])
  have h3 : e ≠ "Confused" := by intro h; exact he (by simp [engagementStates, h])
  have h4 : e ≠ "Not Paying Attention" := by
    intro h; exact he (by simp [engagementStates, h])
  have b1 : (e == "Engaged") = false := beq_eq_false_iff_ne.mpr h1
  have b2 : (e == "Bored") = false := beq_eq_false_iff_ne.mpr h2
  have b3 : (e == "Confused") = false := beq_eq_false_iff_ne.mpr h3
  have b4 : (e == "Not Paying Attention") = false := beq_eq_false_iff_ne.mpr h4
  refine ⟨rfl, ⟨?_, ?_⟩, by decide⟩ <;>
    simp [getEngagementEmoji, getEngagementColor, jsLookupOrDefault,
      emojiMap, colorMap, List.lookup, b1, b2, b3, b4, hpk]

/-- Witness for `c10_engagement_display_behavior` at the out-of-set,
non-prototype value "Happy". -/
theorem c10_display_witness :
    ("Happy" ∉ engagementStates ∧ "Happy" ∉ objectPrototypeKeys) ∧
    getEngagementEmoji "Happy" = DisplayVal.str "🤔" := by
  have h := c10_engagement_display_behavior
    (EngagementResultData.mk "Engaged" 95)
    (StudentEngState.mk none 0) "Happy" (by decide) (by decide)
  exact ⟨⟨by decide, by decide⟩, h.2.1.1⟩

/-- C5 counterexample: the code registers a listener for
`students:list`, which is not among the event names the spec lists. -/
theorem c5_extra_listener_counterexample :
    "students:list" ∈ listenedEventNames ∧
    "students:list" ∉ specEventNames := by
  decide

/-- C5 as amended: every emitted event name is in the spec's list, and
every listened event name is in the spec's list extended by the six
listener registrations the spec omits (`students:list`,
`student:joined`, `teacher:joined`, `student:left`, `teacher:left`,
`engagement:error`); each of those six is indeed missing from the
spec's list. -/
theorem c5_event_inventory :
    (emittedEventNames.all fun e => specEventNames.contains e) = true ∧
    (listenedEventNames.all fun e =>
      (specEventNames ++ extraListenedEventNames).contains e) = true ∧
    (extraListenedEventNames.all fun e =>
      !(specEventNames.contains e)) = true := by
  decide

/-- C7 counterexample: not every REST call's failure handler alerts;
the calls that log without alerting are exactly `getAgoraToken`,
`getStudents`, `fetchAnalytics`, `fetchTopics`, `startTopic`,
`endTopic` and `handleAuth`. -/
theorem c7_missing_alert_counterexample :
    (restCalls.all fun c => c.logsOnError && c.alertsOnError) = false ∧
    ((restCalls.filter fun c => !c.alertsOnError).map fun c => c.name) =
      ["getAgoraToken", "getStudents", "fetchAnalytics", "fetchTopics",
       "startTopic", "endTopic", "handleAuth"] := by
  decide

/-- C7 as amended: every failed REST call logs to the console, but only
`generateReport` surfaces an alert; `handleAuth` surfaces an inline
error message instead, and the remaining calls surface nothing to the
user. -/
theorem c7_rest_error_handling :
    (restCalls.all fun c => c.logsOnError) = true ∧
    (restCalls.all fun c =>
      c.alertsOnError == (c.name == "generateReport")) = true ∧
    (restCalls.all fun c =>
      c.setsInlineError == (c.name == "handleAuth")) = true := by
  decide

/-- C6 counterexample: a track-creation failure whose message is
"Permission denied" makes the older `join` fail outright and makes the
newer `join` rethrow — neither falls back to audio-only. -/
theorem c6_no_fallback_counterexample :
    joinOldMedia (.error (TrackErr.mk (some "Permission denied")
        (some "PERMISSION_DENIED"))) =
      .failed (some "Permission denied") ∧
    joinNewMedia true true
        (.error (TrackErr.mk (some "Permission denied")
          (some "PERMISSION_DENIED"))) (.ok ()) =
      .failed (some "Permission denied") := by
  constructor
  · rfl
  · decide

/-- C6 as amended: the older `useAgora.join` never publishes
audio-only — every track-creation failure surfaces the error and
rethrows; the newer `useAgora.join` falls back to audio-only exactly
when the track error's message mentions "video" or its code is
`NOT_READABLE` and the audio-only attempt succeeds, rethrows every
other track error, and its device pre-check fails with a fixed message
and no fallback when no camera is enumerated. -/
theorem c6_media_fallback_characterization :
    (∀ tr : Except TrackErr Unit,
      joinOldMedia tr ≠ .publishedAudioOnly) ∧
    (∀ e : TrackErr, ∀ ar : Except TrackErr Unit,
      (optMsgContains e.message "video" || e.code = some "NOT_READABLE") = false →
      joinNewMedia true true (.error e) ar = .failed e.message) ∧
    (∀ e : TrackErr,
      (optMsgContains e.message "video" || e.code = some "NOT_READABLE") = true →
      joinNewMedia true true (.error e) (.ok ()) = .publishedAudioOnly) ∧
    (∀ e : TrackErr, ∀ ae : TrackErr,
      (optMsgContains e.message "video" || e.code = some "NOT_READABLE") = true →
      joinNewMedia true true (.error e) (.error ae) =
        .failed (some audioFallbackErrMsg)) ∧
    (∀ hm : Bool, ∀ tr ar : Except TrackErr Unit,
      joinNewMedia false hm tr ar = .failed (some deviceCheckErrMsg)) := by
  refine ⟨?_, ?_, ?_, ?_, ?_⟩
  · intro tr; cases tr <;> simp [joinOldMedia]
  · intro e ar h; simp [joinNewMedia, h]
  · intro e h; simp [joinNewMedia, h]
  · intro e ae h; simp [joinNewMedia, h]
  · intro hm tr ar; simp [joinNewMedia]

/-- Witness for `c6_media_fallback_characterization`: a non-video
error never falls back in the old hook, and a "video"-mentioning error
falls back to audio-only in the new hook. -/
theorem c6_fallback_witness :
    joinOldMedia (.error (TrackErr.mk (some "mic broke") none)) ≠
      MediaOutcome.publishedAudioOnly ∧
    joinNewMedia true true
        (.error (TrackErr.mk (some "video source failed") none))
        (.ok ()) = .publishedAudioOnly := by
  constructor
  · exact c6_media_fallback_characterization.1 _
  · exact c6_media_fallback_characterization.2.2.1
      (TrackErr.mk (some "video source failed") none) (by decide)

/-- C8 counterexample: a successful login writes the user object and
the auth token to `localStorage`, which persists across page
reloads — so not all state is tab-local. -/
theorem c8_localStorage_counterexample :
    AuthEffect.localStorageSet "user" "u1" ∈
      handleAuthEffects "student"
        (.ok (AuthResponse.mk true "u1" "tok" none none)) ∧
    localStorageWrites (handleAuthEffects "student"
        (.ok (AuthResponse.mk true "u1" "tok" none none))) =
      [("user", "u1"), ("token", "tok")] := by
  decide

/-- C8 as amended: the only persistent writes in the modelled code are
`handleAuth`'s — a successful login or signup writes exactly the user
object and the auth token to `localStorage`, while a failed or errored
authentication writes nothing persistent. -/
theorem c8_auth_localStorage_writes (role : String)
    (result : Except Unit AuthResponse) :
    localStorageWrites (handleAuthEffects role result) =
      (match result with
       | .ok r =>
         if r.ok then [("user", r.userJson), ("token", r.token)] else []
       | .error _ => []) := by
  cases result with
  | error _ => rfl
  | ok r =>
    by_cases h : r.ok = true
    · simp [handleAuthEffects, localStorageWrites, h]
    · simp only [Bool.not_eq_true] at h
      by_cases h2 : r.available = some false <;>
        simp [handleAuthEffects, localStorageWrites, h, h2]

/-- C1 counterexample: on a page change from a state whose serialized
canvas is "IMG", the emitted message carries only the channel name and
the page index — the image "IMG" appears nowhere in the emission,
whereas the spec's described behaviour would emit it — and handling a
received `whiteboard:changePage` stores the component's *own* canvas
into its local pages array instead of replacing the pages with any
received list (the received event carries no list at all). -/
theorem c1_pageSync_counterexample :
    (goToPage (WbProps.mk true "room" true) 1
        { initialWbState with
            pages := [some "A", some "B"], canvas := "IMG" }).2 =
      [("whiteboard:changePage",
        [("channelName", JsVal.str "room"), ("page", JsVal.num 1)])] ∧
    JsVal.str "IMG" ∉ payloadVals (goToPage (WbProps.mk true "room" true) 1
        { initialWbState with
            pages := [some "A", some "B"], canvas := "IMG" }).2 ∧
    JsVal.str "IMG" ∈ payloadVals (specModelPageChangeEmit "room" "IMG") ∧
    ((onChangePage (WbProps.mk true "room" true)
        (ChangePageData.mk "room" 1)
        { initialWbState with
            pages := [some "A", some "B"], canvas := "IMG" }).1).pages =
      [some "IMG", some "B"] := by
  decide

/-- C1 as amended: on a page change the client saves the serialized
canvas into its *local* pages array and emits a `whiteboard:changePage`
carrying only the channel name and the page index (in particular, never
the canvas image); on receiving a peer's matching `changePage` it
installs no received list — it saves its own canvas locally and
switches to the received index. -/
theorem c1_changePage_carries_only_index (p : WbProps)
    (d : ChangePageData) (s : WbState) (hs : p.hasSocket = true)
    (hc : d.channelName = p.channelName)
    (hne : s.canvas ≠ p.channelName) :
    (onChangePage p d s).1.currentPage = d.page ∧
    (onChangePage p d s).1.pages =
      jsArraySet s.pages s.currentPage s.canvas ∧
    (onChangePage p d s).2 =
      [("whiteboard:changePage",
        [("channelName", JsVal.str p.channelName),
         ("page", JsVal.num (d.page : Int))])] ∧
    JsVal.str s.canvas ∉ payloadVals (onChangePage p d s).2 := by
  refine ⟨?_, ?_, ?_, ?_⟩ <;>
    simp [onChangePage, goToPage, hc, hs, payloadVals, hne]

/-- Witness for `c1_changePage_carries_only_index`. -/
theorem c1_changePage_witness :
    (onChangePage (WbProps.mk true "room" false)
        (ChangePageData.mk "room" 1)
        { initialWbState with canvas := "IMG" }).1.currentPage = 1 := by
  have h := c1_changePage_carries_only_index (WbProps.mk true "room" false)
    (ChangePageData.mk "room" 1) { initialWbState with canvas := "IMG" }
    rfl rfl (by decide)
  exact h.1

/-- JS assignment at an in-range index preserves the array length. -/
theorem jsArraySet_length_of_lt (xs : List (Option String)) (i : Nat)
    (v : String) (h : i < xs.length) :
    (jsArraySet xs i v).length = xs.length := by
  simp [jsArraySet, h]

/-- Helper: a commit that leaves `currentPage` at its previous value
does not re-run the effect. -/
theorem commitEffect_of_eq (prev : Nat) (c : WbComp)
    (h : c.st.currentPage = prev) : commitEffect prev c = c := by
  unfold commitEffect
  simp [h]

/-- Helper: a commit that changes `currentPage` re-runs the effect,
refreshing the capture with the just-committed state. -/
theorem commitEffect_of_ne (prev : Nat) (c : WbComp)
    (h : c.st.currentPage ≠ prev) :
    commitEffect prev c =
      WbComp.mk c.st (WbCapture.mk c.st.pages c.st.currentPage) := by
  unfold commitEffect
  simp [h]

/-- Helper: a freshly refreshed capture satisfies the component
invariant as soon as the committed state does. -/
theorem compInv_refresh (st1 : WbState) (hInv : WbInv st1) :
    WbCompInv (WbComp.mk st1 (WbCapture.mk st1.pages st1.currentPage)) := by
  unfold WbInv at hInv
  exact ⟨hInv, rfl, hInv, Nat.le_refl _⟩

/-- Helper: a commit that keeps `currentPage` and does not shorten
`pages` preserves the component invariant. -/
theorem compInv_of_currentPage_fixed (c : WbComp) (st1 : WbState)
    (hp : c.st.pages.length ≤ st1.pages.length)
    (hc : st1.currentPage = c.st.currentPage)
    (hInv : WbCompInv c) :
    WbCompInv (commitEffect c.st.currentPage (WbComp.mk st1 c.cap)) := by
  obtain ⟨h1, h2, h3, h4⟩ := hInv
  unfold WbInv at h1
  rw [commitEffect_of_eq _ _ hc]
  have hA : WbInv st1 := by unfold WbInv; omega
  have hB : c.cap.capCurrentPage = st1.currentPage := by omega
  have hC : st1.currentPage < c.cap.capPages.length := by omega
  have hD : c.cap.capPages.length ≤ st1.pages.length := by omega
  exact ⟨hA, hB, hC, hD⟩

/-- Helper: a render-fresh `goToPage` to an index within the committed
pages array preserves the component invariant (the save keeps the
length, and the effect re-captures when the index changed). -/
theorem compInv_localGoToPage (p : WbProps) (c : WbComp) (j : Nat)
    (hInv : WbCompInv c) (hj : j < c.st.pages.length) :
    WbCompInv (localComp (goToPage p j) c) := by
  obtain ⟨h1, h2, h3, h4⟩ := hInv
  unfold WbInv at h1
  have hlen : ((goToPage p j c.st).1).pages.length = c.st.pages.length :=
    jsArraySet_length_of_lt c.st.pages c.st.currentPage c.st.canvas h1
  have hcur : ((goToPage p j c.st).1).currentPage = j := rfl
  unfold localComp
  by_cases hjk : j = c.st.currentPage
  · rw [commitEffect_of_eq _ _ (by rw [hcur]; exact hjk)]
    unfold WbCompInv WbInv
    dsimp only
    omega
  · rw [commitEffect_of_ne _ _ (by rw [hcur]; exact hjk)]
    unfold WbCompInv WbInv
    dsimp only
    omega

/-- Helper: the stale-closure `goToPage` run by a delivered
`whiteboard:changePage` preserves the component invariant whenever the
received index is within the *captured* pages array (which the closure
commits back, at its own length). -/
theorem compInv_staleGoToPage (p : WbProps) (c : WbComp) (j : Nat)
    (hInv : WbCompInv c) (hj : j < c.cap.capPages.length) :
    WbCompInv (commitEffect c.st.currentPage
      (WbComp.mk (goToPage p j
        { c.st with pages := c.cap.capPages,
                    currentPage := c.cap.capCurrentPage }).1 c.cap)) := by
  obtain ⟨h1, h2, h3, h4⟩ := hInv
  unfold WbInv at h1
  have hcapcur : c.cap.capCurrentPage < c.cap.capPages.length := by omega
  have hlen : ((goToPage p j
      { c.st with pages := c.cap.capPages,
                  currentPage := c.cap.capCurrentPage }).1).pages.length =
      c.cap.capPages.length :=
    jsArraySet_length_of_lt c.cap.capPages c.cap.capCurrentPage
      c.st.canvas hcapcur
  have hcur : ((goToPage p j
      { c.st with pages := c.cap.capPages,
                  currentPage := c.cap.capCurrentPage }).1).currentPage = j :=
    rfl
  by_cases hjk : j = c.st.currentPage
  · rw [commitEffect_of_eq _ _ (by rw [hcur]; exact hjk)]
    unfold WbCompInv WbInv
    dsimp only
    dsimp only at hlen hcur
    omega
  · rw [commitEffect_of_ne _ _ (by rw [hcur]; exact hjk)]
    unfold WbCompInv WbInv
    dsimp only
    dsimp only at hlen hcur
    omega

/-- Helper: render-fresh `addNewPage` preserves the component
invariant: it appends a blank page, moves to it, and — `currentPage`
having changed — the effect re-captures the fresh state. -/
theorem compInv_addNewPage (p : WbProps) (c : WbComp)
    (hInv : WbCompInv c) :
    WbCompInv (localComp (addNewPage p) c) := by
  obtain ⟨h1, h2, h3, h4⟩ := hInv
  unfold WbInv at h1
  unfold localComp addNewPage
  by_cases ht : (!p.isTeacher) = true
  · rw [if_pos ht]
    rw [commitEffect_of_eq _ _ rfl]
    exact ⟨h1, h2, h3, h4⟩
  · rw [if_neg ht]
    rw [commitEffect_of_ne _ _ (by dsimp only; omega)]
    apply compInv_refresh
    unfold WbInv
    show c.st.pages.length < (c.st.pages ++ [none]).length
    simp

/-- Every bounded component step preserves the component invariant. -/
theorem wbCompStepBounded_preserves_inv (p : WbProps) {c c2 : WbComp}
    (hInv : WbCompInv c) (h : WbCompStepBounded p c c2) : WbCompInv c2 := by
  cases h with
  | start x y c =>
    exact compInv_of_currentPage_fixed c _
      (by simp only [startDrawing]; split <;> simp)
      (by simp only [startDrawing]; split <;> simp) hInv
  | drawMove x y c =>
    exact compInv_of_currentPage_fixed c _
      (by simp only [draw]; split <;> simp)
      (by simp only [draw]; split <;> simp) hInv
  | stop c =>
    exact compInv_of_currentPage_fixed c _
      (by simp [stopDrawing]) (by simp [stopDrawing]) hInv
  | clearPage c =>
    exact compInv_of_currentPage_fixed c _
      (by simp only [handleClear]; split <;> simp)
      (by simp only [handleClear]; split <;> simp) hInv
  | newPage c => exact compInv_addNewPage p c hInv
  | prevPage c =>
    refine compInv_localGoToPage p c (prevPageIndex c.st) hInv ?_
    obtain ⟨h1, _, _, _⟩ := hInv
    unfold WbInv at h1
    unfold prevPageIndex
    omega
  | nextPage c =>
    refine compInv_localGoToPage p c (nextPageIndex c.st) hInv ?_
    obtain ⟨h1, _, _, _⟩ := hInv
    unfold WbInv at h1
    unfold nextPageIndex
    omega
  | pageButton i c hi => exact compInv_localGoToPage p c i hInv hi
  | toggleFs c =>
    obtain ⟨h1, h2, h3, h4⟩ := hInv
    unfold WbInv at h1
    exact ⟨h1, rfl, h1, Nat.le_refl _⟩
  | recvDraw d c =>
    exact compInv_of_currentPage_fixed c _
      (by simp only [onDraw]; split <;> simp)
      (by simp only [onDraw]; split <;> simp) hInv
  | recvClear d c =>
    exact compInv_of_currentPage_fixed c _
      (by split <;> simp) (by split <;> simp) hInv
  | recvNewPage d c =>
    exact compInv_of_currentPage_fixed c _
      (by simp only [onNewPage]; split <;> simp)
      (by simp only [onNewPage]; split <;> simp) hInv
  | recvChangePage d c hb =>
    by_cases hch : d.channelName = p.channelName
    · unfold recvChangePageComp
      rw [if_pos hch]
      exact compInv_staleGoToPage p c d.page hInv (hb hch)
    · unfold recvChangePageComp
      rw [if_neg hch]
      exact hInv

/-- C2 as amended: the "array index in range" property
`currentPage < pages.length` holds in every reachable configuration
provided each delivered `whiteboard:changePage` addressed to the
component's channel carries a page index below the pages length
captured at the handlers' last registration (the effect's dependency
list omits `pages`, so the handler closures read a stale pages array;
an index merely below the *current* pages length does not suffice —
see the counterexample).  Local operations, `addNewPage`, fullscreen
toggles, and delivered `whiteboard:newPage` events preserve the
property unconditionally. -/
theorem c2_stale_bounded_reachable_inv (p : WbProps) (c : WbComp)
    (h : WbCompReachableBounded p c) : WbInv c.st := by
  have hInv : WbCompInv c := by
    induction h with
    | refl => decide
    | tail _ hstep ih => exact wbCompStepBounded_preserves_inv p ih hstep
  exact hInv.1

/-- Witness for `c2_stale_bounded_reachable_inv`: the property after
one `addNewPage` step from the initial configuration. -/
theorem c2_stale_inv_witness :
    WbInv (localComp (addNewPage (WbProps.mk true "room" true))
      initialWbComp).st :=
  c2_stale_bounded_reachable_inv (WbProps.mk true "room" true) _
    (Relation.ReflTransGen.single (WbCompStepBounded.newPage initialWbComp))

/-- C2 counterexample: deliver `whiteboard:newPage` (pages grow to 2
without re-registering the handlers, since `pages` is not an effect
dependency) and then `whiteboard:changePage` with page index 1 — in
range of the *current* pages array at receipt.  The stale closure's
`goToPage` commits its captured one-page array (shrinking `pages` back
to length 1) while setting `currentPage` to 1: the reachable result has
`currentPage = 1` and `pages.length = 1`, so index-in-range is not an
invariant of all reachable configurations, and an in-range-at-receipt
index does not restore it. -/
theorem c2_stale_changePage_breaks_inv :
    WbCompReachable (WbProps.mk true "room" false)
      (recvChangePageComp (WbProps.mk true "room" false)
        (ChangePageData.mk "room" 1)
        (recvNewPageComp (WbProps.mk true "room" false)
          (NewPageData.mk "room") initialWbComp)) ∧
    1 < (recvNewPageComp (WbProps.mk true "room" false)
        (NewPageData.mk "room") initialWbComp).st.pages.length ∧
    ¬ WbInv (recvChangePageComp (WbProps.mk true "room" false)
        (ChangePageData.mk "room" 1)
        (recvNewPageComp (WbProps.mk true "room" false)
          (NewPageData.mk "room") initialWbComp)).st := by
  refine ⟨?_, by decide, by decide⟩
  exact Relation.ReflTransGen.tail
    (Relation.ReflTransGen.single
      (WbCompStep.recvNewPage (NewPageData.mk "room") initialWbComp))
    (WbCompStep.recvChangePage (ChangePageData.mk "room" 1)
      (recvNewPageComp (WbProps.mk true "room" false)
        (NewPageData.mk "room") initialWbComp))


end Frontend
